import Mathlib

/-!
Shallow embedding of the libbyreads scraper (src/main.py).

Python strings are modelled as lists of Unicode code points (`List Char`),
which matches Python semantics: `x in y` on strings is code-point-level
substring containment, indexing and splitting are code-point based.
-/

/-- A Python string: a sequence of Unicode code points. -/
abbrev PyStr := List Char

/-- Literal helper: the code points of a Lean string literal. -/
def lit (s : String) : PyStr := s.data

/-- Python `needle in haystack` on strings: literal, case-sensitive substring
containment (the needle occurs contiguously inside the haystack). -/
def pyIn (needle haystack : PyStr) : Bool := decide (needle <:+: haystack)

/-- `AvailabilityType` enum from main.py.  The spec names these
NotFound = DEVOID, Available = AVAILABLE, Owned = OWNED, Unknown = ERROR. -/
inductive AvailabilityType where
  | AVAILABLE
  | OWNED
  | DEVOID
  | ERROR
deriving DecidableEq, Repr

/-- The `.value` string of each enum member, as stored in results. -/
def AvailabilityType.value : AvailabilityType → PyStr
  | .AVAILABLE => lit "AVAILABLE"
  | .OWNED => lit "OWNED"
  | .DEVOID => lit "DEVOID"
  | .ERROR => lit "ERROR"

/-- `SearchRow` model from main.py (a task). -/
structure SearchRow where
  lib_name : PyStr
  search_url : PyStr
  title : PyStr
  author : PyStr
deriving DecidableEq, Repr

instance : Inhabited SearchRow := ⟨⟨[], [], [], []⟩⟩

/-- `SearchResult` model from main.py. -/
structure SearchResult where
  title : PyStr
  author : PyStr
  lib_name : PyStr
  avail : PyStr
  audiobook : Bool
  ebook : Bool
  search_url : PyStr
deriving DecidableEq, Repr

/-- The availability classification in `find_book_at_lib` (main.py lines
106-112): `avail` starts as ERROR, then the if/elif chain checks
"No results.", then "Borrow", then "Place Hold". -/
def availOf (text : PyStr) : AvailabilityType :=
  if pyIn (lit "No results.") text then .DEVOID
  else if pyIn (lit "Borrow") text then .AVAILABLE
  else if pyIn (lit "Place Hold") text then .OWNED
  else .ERROR

/-- Audiobook flag (main.py lines 114-117): text contains "Play Sample". -/
def audiobookOf (text : PyStr) : Bool := pyIn (lit "Play Sample") text

/-- Ebook flag (main.py lines 115-119): text contains "Read Sample". -/
def ebookOf (text : PyStr) : Bool := pyIn (lit "Read Sample") text

/-- The pure tail of `find_book_at_lib`: given the task row and the rendered
page text, build the `SearchResult` (main.py lines 106-129). -/
def classifyResult (row : SearchRow) (text : PyStr) : SearchResult :=
  { title := row.title
    author := row.author
    lib_name := row.lib_name
    avail := (availOf text).value
    audiobook := audiobookOf text
    ebook := ebookOf text
    search_url := row.search_url }

/-- Characters Python `str.strip()` removes (space, tab, newline, CR). -/
def pyWs (c : Char) : Bool := c.isWhitespace

/-- Python `str.strip()`: drop whitespace from both ends.
(`List.rdropWhile p l` is `(l.reverse.dropWhile p).reverse`.) -/
def pyStrip (s : PyStr) : PyStr :=
  List.rdropWhile pyWs (s.dropWhile pyWs)

/-- Python `re.split` on a single-character alternation pattern: cut the
string at every character satisfying `p`. Never returns an empty list. -/
def pySplit (p : Char → Bool) : PyStr → List PyStr
  | [] => [[]]
  | c :: cs =>
    if p c then [] :: pySplit p cs
    else
      match pySplit p cs with
      | [] => [[c]]
      | f :: rest => (c :: f) :: rest

/-- The split characters of `simplify_title`: the regex pattern colon-or-paren. -/
def isSplitChar (c : Char) : Bool := c = ':' || c = '('

/-- `simplify_title` from main.py lines 132-143:
`re.split` on colon-or-paren, take field 0, `.strip()`. -/
def simplify_title (title : PyStr) : PyStr :=
  pyStrip ((pySplit isSplitChar title).headD [])

theorem pySplit_ne_nil (p : Char → Bool) (s : PyStr) : pySplit p s ≠ [] := by
  cases s with
  | nil => simp [pySplit]
  | cons c cs =>
    simp only [pySplit]
    split
    · simp
    · cases h : pySplit p cs <;> simp

theorem pySplit_headD (p : Char → Bool) (s : PyStr) :
    (pySplit p s).headD [] = s.takeWhile (fun c => !p c) := by
  induction s with
  | nil => simp [pySplit, List.takeWhile]
  | cons c cs ih =>
    simp only [pySplit, List.takeWhile]
    by_cases hc : p c
    · simp [hc]
    · simp only [hc, if_neg, Bool.not_false]
      cases h : pySplit p cs with
      | nil => exact absurd h (pySplit_ne_nil p cs)
      | cons f rest =>
        simp only [hc]
        simp only [h, List.headD_cons] at ih ⊢
        simp [ih]

theorem dropWhile_strip_aux (p : Char → Bool) (s : PyStr) :
    List.dropWhile p (List.rdropWhile p (s.dropWhile p)) = List.rdropWhile p (s.dropWhile p) := by
  cases hx : List.rdropWhile p (s.dropWhile p) with
  | nil => simp
  | cons a x =>
    have hne : List.rdropWhile p (s.dropWhile p) ≠ [] := by simp [hx]
    have hpre := List.rdropWhile_prefix p (s.dropWhile p)
    have ha : a = (s.dropWhile p).head (hpre.ne_nil hne) := by
      rw [← hpre.head hne]
      simp [hx]
    have hpa : p a = false := by
      rw [ha]
      exact List.head_dropWhile_not p s _
    simp [List.dropWhile_cons, hpa]

theorem pyStrip_idem (s : PyStr) : pyStrip (pyStrip s) = pyStrip s := by
  unfold pyStrip
  rw [dropWhile_strip_aux, List.rdropWhile_idempotent]

theorem pyStrip_subset (s : PyStr) : pyStrip s ⊆ s := by
  intro c hc
  have h1 : c ∈ s.dropWhile pyWs :=
    (List.rdropWhile_prefix pyWs (s.dropWhile pyWs)).subset hc
  exact (List.dropWhile_suffix pyWs).subset h1

/-- The normalizer contract in the words of the spec, section 4.1: everything
preceding the first occurrence of a colon or open paren, trimmed of
surrounding whitespace. -/
def specSimplifiedTitle (title : PyStr) : PyStr :=
  pyStrip (title.takeWhile (fun c => !(c = ':' || c = '(')))

/-- C6: for every raw title string, `simplify_title` returns the portion of
the string preceding the first occurrence of a colon or open paren with
surrounding whitespace trimmed; if neither character occurs it returns the
trimmed original string unchanged; and the Going Postal example normalizes
exactly as stated. -/
theorem simplify_title_contract (title : PyStr) :
    simplify_title title = specSimplifiedTitle title ∧
    ((∀ c ∈ title, ¬(c = ':' ∨ c = '(')) → simplify_title title = pyStrip title) ∧
    simplify_title (lit "Going Postal (Discworld, #33; Moist von Lipwig, #1)") =
      lit "Going Postal" := by
  refine ⟨?_, ?_, by decide⟩
  · unfold simplify_title specSimplifiedTitle
    rw [pySplit_headD]
    rfl
  · intro h
    unfold simplify_title
    rw [pySplit_headD]
    have : title.takeWhile (fun c => !isSplitChar c) = title := by
      rw [List.takeWhile_eq_self_iff]
      intro a ha
      have := h a ha
      simp [isSplitChar]
      tauto
    rw [this]

/-- Witness for the hypothesis-bearing conjunct of the C6 theorem, applied at
a concrete title with no colon and no paren. -/
theorem simplify_title_contract_witness :
    simplify_title (lit "  The Hobbit ") = pyStrip (lit "  The Hobbit ") :=
  (simplify_title_contract (lit "  The Hobbit ")).2.1 (by decide)

/-- C7: title normalization is idempotent: applying `simplify_title` to its
own output yields the same output, for every input string. -/
theorem simplify_title_idempotent (x : PyStr) :
    simplify_title (simplify_title x) = simplify_title x := by
  have hrw : ∀ t : PyStr, simplify_title t =
      pyStrip (t.takeWhile (fun c => !isSplitChar c)) := by
    intro t
    unfold simplify_title
    rw [pySplit_headD]
  rw [hrw x, hrw]
  have htake : (pyStrip (x.takeWhile (fun c => !isSplitChar c))).takeWhile
      (fun c => !isSplitChar c) = pyStrip (x.takeWhile (fun c => !isSplitChar c)) := by
    rw [List.takeWhile_eq_self_iff]
    intro a ha
    have hmem : a ∈ x.takeWhile (fun c => !isSplitChar c) := pyStrip_subset _ ha
    have hq := List.mem_takeWhile_imp hmem
    simpa using hq
  rw [htake]
  exact pyStrip_idem _

/-- C1: availability classification is a fixed-priority short-circuit search.
If the text contains "No results." the state is DEVOID (spec name NotFound),
even when other markers co-occur; otherwise "Borrow" gives AVAILABLE
(Available); otherwise "Place Hold" gives OWNED (Owned); otherwise ERROR
(Unknown).  `availOf` is a total function, so exactly one state is produced
per input. -/
theorem availOf_priority (text : PyStr) :
    (pyIn (lit "No results.") text = true → availOf text = .DEVOID) ∧
    (pyIn (lit "No results.") text = false → pyIn (lit "Borrow") text = true →
      availOf text = .AVAILABLE) ∧
    (pyIn (lit "No results.") text = false → pyIn (lit "Borrow") text = false →
      pyIn (lit "Place Hold") text = true → availOf text = .OWNED) ∧
    (pyIn (lit "No results.") text = false → pyIn (lit "Borrow") text = false →
      pyIn (lit "Place Hold") text = false → availOf text = .ERROR) := by
  refine ⟨?_, ?_, ?_, ?_⟩
  · intro h1
    simp [availOf, h1]
  · intro h1 h2
    simp [availOf, h1, h2]
  · intro h1 h2 h3
    simp [availOf, h1, h2, h3]
  · intro h1 h2 h3
    simp [availOf, h1, h2, h3]

/-- Witness for the C1 theorem: each branch applied at a concrete page text;
the first input contains both "No results." and "Borrow" and still
classifies DEVOID (NotFound). -/
theorem availOf_priority_witness :
    availOf (lit "No results. Borrow Place Hold") = .DEVOID ∧
    availOf (lit "Borrow or Place Hold") = .AVAILABLE ∧
    availOf (lit "Place Hold now") = .OWNED ∧
    availOf (lit "nothing recognizable") = .ERROR :=
  ⟨(availOf_priority _).1 (by decide),
   (availOf_priority _).2.1 (by decide) (by decide),
   (availOf_priority _).2.2.1 (by decide) (by decide) (by decide),
   (availOf_priority _).2.2.2 (by decide) (by decide) (by decide)⟩

/-- C4: for every rendered page text, the audiobook flag is true exactly when
the text contains "Play Sample" and the ebook flag is true exactly when the
text contains "Read Sample"; both flags are computed from the text alone,
independently of the availability state, and a text containing both
"No results." and "Play Sample" yields avail DEVOID (NotFound) together with
audiobook = true. -/
theorem format_flags_independent (row : SearchRow) (text : PyStr) :
    ((classifyResult row text).audiobook = true ↔ lit "Play Sample" <:+: text) ∧
    ((classifyResult row text).ebook = true ↔ lit "Read Sample" <:+: text) ∧
    (classifyResult row (lit "No results. Play Sample")).avail = lit "DEVOID" ∧
    (classifyResult row (lit "No results. Play Sample")).audiobook = true := by
  refine ⟨?_, ?_, ?_, ?_⟩
  · simp [classifyResult, audiobookOf, pyIn]
  · simp [classifyResult, ebookOf, pyIn]
  · show (availOf (lit "No results. Play Sample")).value = lit "DEVOID"
    decide
  · show audiobookOf (lit "No results. Play Sample") = true
    decide

/-- C10: marker detection is case-sensitive literal substring containment on
the whole page text.  A text containing only lowercase variants such as
"borrow" or "place hold" matches no availability marker and classifies as
ERROR (spec Unknown), while any text containing "Borrow" -- also as part of a
longer word such as "Borrowing" -- classifies as AVAILABLE when
"No results." is absent. -/
theorem marker_matching_case_sensitive :
    availOf (lit "you may borrow or place hold here") = .ERROR ∧
    (∀ text : PyStr, pyIn (lit "No results.") text = false →
      pyIn (lit "Borrow") text = true → availOf text = .AVAILABLE) ∧
    availOf (lit "Borrowing is closed") = .AVAILABLE := by
  refine ⟨by decide, ?_, by decide⟩
  intro text h1 h2
  simp [availOf, h1, h2]

/-- Witness for the C10 theorem, applied at a concrete text. -/
theorem marker_matching_case_sensitive_witness :
    availOf (lit "Borrow me") = .AVAILABLE :=
  marker_matching_case_sensitive.2.1 (lit "Borrow me") (by decide) (by decide)

/-- UTF-8 encoding of one code point (the byte values), as used by
urllib.parse.quote on non-safe characters. -/
def utf8Bytes (c : Char) : List Nat :=
  let n := c.toNat
  if n < 0x80 then [n]
  else if n < 0x800 then [0xC0 + n / 0x40, 0x80 + n % 0x40]
  else if n < 0x10000 then
    [0xE0 + n / 0x1000, 0x80 + (n / 0x40) % 0x40, 0x80 + n % 0x40]
  else
    [0xF0 + n / 0x40000, 0x80 + (n / 0x1000) % 0x40, 0x80 + (n / 0x40) % 0x40,
     0x80 + n % 0x40]

/-- Characters urllib.parse.quote leaves unescaped with its default
safe="/": ASCII letters, ASCII digits, underscore, dot, hyphen, tilde,
and the safe slash. -/
def quoteSafe (c : Char) : Bool :=
  c.isAlpha || c.isDigit || c = '_' || c = '.' || c = '-' || c = '~' || c = '/'

/-- Uppercase hexadecimal digit for a value below 16. -/
def hexDigit (n : Nat) : Char :=
  if n < 10 then Char.ofNat (48 + n) else Char.ofNat (55 + n)

/-- urllib.parse.quote with default arguments (main.py line 176): safe
characters pass through, every other character is replaced by the
percent-encoding of its UTF-8 bytes, uppercase hex. -/
def pyQuote (s : PyStr) : PyStr :=
  s.flatMap fun c =>
    if quoteSafe c then [c]
    else (utf8Bytes c).flatMap fun b => ['%', hexDigit (b / 16), hexDigit (b % 16)]

/-- A goodreads-export row after the to-read shelf filter: the Title and
Author columns consumed by main. -/
structure Book where
  Title : PyStr
  Author : PyStr
deriving DecidableEq, Repr

/-- main.py lines 162-163: every to-read title is simplified in place
before task generation. -/
def normalizeBooks (books : List Book) : List Book :=
  books.map fun b => { b with Title := simplify_title b.Title }

/-- One iteration of the nested loop of main.py lines 172-180: the query is
the title and author joined by one space, percent encoded, substituted into
the fixed search path pattern of the library base URL. -/
def mkSearchRow (b : Book) (l : PyStr × PyStr) : SearchRow :=
  let query := b.Title ++ lit " " ++ b.Author
  let url_safe_query := pyQuote query
  { lib_name := l.1
    search_url := l.2 ++ lit "/search/query-" ++ url_safe_query ++ lit "/page-1"
    title := b.Title
    author := b.Author }

/-- main.py lines 171-180: one SearchRow per (book, library) pair, books
outer, libraries inner. -/
def buildSearchRows (books : List Book) (libs : List (PyStr × PyStr)) :
    List SearchRow :=
  books.flatMap fun b => libs.map (mkSearchRow b)

/-- The full task-generation pipeline of main: normalize titles in place,
then fan out over the library table. -/
def generateTasks (books : List Book) (libs : List (PyStr × PyStr)) :
    List SearchRow :=
  buildSearchRows (normalizeBooks books) libs

theorem length_buildSearchRows (books : List Book) (libs : List (PyStr × PyStr)) :
    (buildSearchRows books libs).length = books.length * libs.length := by
  unfold buildSearchRows
  induction books with
  | nil => simp
  | cons b t ih => simp [ih, Nat.succ_mul, Nat.add_comm]

/-- C5: n filtered titles and m catalogs yield exactly n times m tasks; every
generated task is the task of some (book, catalog) pair built from the
normalized title; every (book, catalog) pair contributes its task; and the
search URL of a task is the catalog base URL, then "/search/query-", then
the percent-encoded query (normalized title, space, author), then
"/page-1". -/
theorem task_generation_contract (books : List Book) (libs : List (PyStr × PyStr)) :
    (generateTasks books libs).length = books.length * libs.length ∧
    (∀ r ∈ generateTasks books libs, ∃ b ∈ books, ∃ l ∈ libs,
        r = mkSearchRow { Title := simplify_title b.Title, Author := b.Author } l) ∧
    (∀ b ∈ books, ∀ l ∈ libs,
        mkSearchRow { Title := simplify_title b.Title, Author := b.Author } l ∈
          generateTasks books libs) ∧
    (∀ (b : Book) (l : PyStr × PyStr), (mkSearchRow b l).search_url =
        l.2 ++ lit "/search/query-" ++ pyQuote (b.Title ++ lit " " ++ b.Author) ++
          lit "/page-1") := by
  refine ⟨?_, ?_, ?_, ?_⟩
  · rw [generateTasks, length_buildSearchRows]
    simp [normalizeBooks]
  · intro r hr
    simp only [generateTasks, buildSearchRows, normalizeBooks, List.mem_flatMap,
      List.mem_map] at hr
    obtain ⟨nb, ⟨b, hb, rfl⟩, l, hl, rfl⟩ := hr
    exact ⟨b, hb, l, hl, rfl⟩
  · intro b hb l hl
    simp only [generateTasks, buildSearchRows, normalizeBooks, List.mem_flatMap,
      List.mem_map]
    exact ⟨{ Title := simplify_title b.Title, Author := b.Author }, ⟨b, hb, rfl⟩,
      l, hl, rfl⟩
  · intro b l
    rfl

/-- Witness for the C5 theorem at a concrete reading list and catalog table:
three titles and two catalogs yield exactly six tasks, and a generated task
carries the fully-built URL. -/
theorem task_generation_contract_witness :
    (generateTasks
      [⟨lit "A", lit "X"⟩, ⟨lit "B", lit "Y"⟩, ⟨lit "C", lit "Z"⟩]
      [(lit "hawaii", lit "https://libbyapp.com/library/hawaii"),
       (lit "utah", lit "https://libbyapp.com/library/beehive")]).length = 6 ∧
    mkSearchRow ⟨simplify_title (lit "A"), lit "X"⟩
        (lit "hawaii", lit "https://libbyapp.com/library/hawaii") ∈
      generateTasks [⟨lit "A", lit "X"⟩]
        [(lit "hawaii", lit "https://libbyapp.com/library/hawaii")] :=
  ⟨(task_generation_contract
      [⟨lit "A", lit "X"⟩, ⟨lit "B", lit "Y"⟩, ⟨lit "C", lit "Z"⟩]
      [(lit "hawaii", lit "https://libbyapp.com/library/hawaii"),
       (lit "utah", lit "https://libbyapp.com/library/beehive")]).1,
   (task_generation_contract [⟨lit "A", lit "X"⟩]
      [(lit "hawaii", lit "https://libbyapp.com/library/hawaii")]).2.2.1
      ⟨lit "A", lit "X"⟩ (by simp) _ (by simp)⟩

/-- The failure taxonomy of spec section 7 that can arise while processing a
task: the rendering session cannot be created, or the session cannot load
the target URL. -/
inductive PyError where
  | sessionCreation
  | navigation
deriving DecidableEq, Repr

/-- The effectful environment of one task: driver acquisition (main.py lines
47-52, 101) and navigation plus page-source read (lines 103-105).  Either
step can raise. -/
structure TaskEnv where
  createDriver : Except PyError Unit
  fetchPage : PyStr → Except PyError PyStr

/-- `find_book_at_lib` (main.py lines 99-129): create or reuse the driver,
navigate to the search URL, read the page text, classify.  The Python body
contains no try/except, so any exception propagates to the caller. -/
def find_book_at_lib (env : TaskEnv) (search_row : SearchRow) :
    Except PyError SearchResult := do
  let _ ← env.createDriver
  let text ← env.fetchPage search_row.search_url
  pure (classifyResult search_row text)

/-- The collection loop of main.py lines 188-192 over `pool.imap`: results
are consumed one task at a time; an exception raised inside any task is
re-raised at the iterator and aborts the loop, and with it the run. -/
def collectResults (env : TaskEnv) (rows : List SearchRow) :
    Except PyError (List SearchResult) :=
  rows.mapM (find_book_at_lib env)

/-- A concrete task pair used as counterexample input. -/
def demoRowA : SearchRow :=
  { lib_name := lit "hawaii", search_url := lit "urlA",
    title := lit "A", author := lit "X" }

/-- A second concrete task. -/
def demoRowB : SearchRow :=
  { lib_name := lit "utah", search_url := lit "urlB",
    title := lit "B", author := lit "Y" }

/-- A concrete environment in which navigation fails for the URL of
`demoRowA` and every other page renders with a Borrow marker. -/
def navFailEnv : TaskEnv where
  createDriver := Except.ok ()
  fetchPage := fun url =>
    if url = lit "urlA" then Except.error PyError.navigation
    else Except.ok (lit "Borrow")

/-- C2 counterexample: with a navigation failure on the first task, the run
aborts with the error.  No result with availability ERROR (spec Unknown) is
produced for the failing task, and the second, healthy task contributes no
collected result either, refuting the claim that a task failure is caught
at the task boundary and downgraded. -/
theorem task_failure_aborts_run_counterexample :
    collectResults navFailEnv [demoRowA, demoRowB] =
      Except.error PyError.navigation := by
  rfl

/-- C2 amended: the code catches nothing at the task boundary.  If any task
of the list fails with a session-creation or navigation error, the
collection loop never produces a result list: the failure aborts the whole
run and with it every other task's contribution.  Only pages that render
but match no marker are recorded as ERROR (Unknown). -/
theorem task_failure_propagates (env : TaskEnv) (rows : List SearchRow)
    (r : SearchRow) (e : PyError) (hr : r ∈ rows)
    (hf : find_book_at_lib env r = Except.error e) :
    ∀ res : List SearchResult, collectResults env rows ≠ Except.ok res := by
  induction hr with
  | head t =>
    intro res h
    rw [collectResults, List.mapM_cons, hf] at h
    simp [Bind.bind, Except.bind] at h
  | tail a hmem ih =>
    intro res h
    rw [collectResults, List.mapM_cons] at h
    cases hfa : find_book_at_lib env a with
    | error e2 =>
      rw [hfa] at h
      simp [Bind.bind, Except.bind] at h
    | ok b =>
      rw [hfa] at h
      simp only [Bind.bind, Except.bind] at h
      cases hmt : List.mapM (find_book_at_lib env) _ with
      | error e2 =>
        rw [hmt] at h
        simp [Except.map] at h
      | ok l =>
        rw [hmt] at h
        exact ih l hmt

/-- Witness for the C2 amended theorem at a concrete failing run. -/
theorem task_failure_propagates_witness :
    collectResults navFailEnv [demoRowA, demoRowB] ≠ Except.ok [] :=
  task_failure_propagates navFailEnv [demoRowA, demoRowB] demoRowA
    PyError.navigation (by simp) (by rfl) []

/-- Least natural number not in `S`, computed with enough fuel.  After the
completions listed in `S`, `pool.imap` has yielded exactly the results of
the indices below this bound, in index order: imap delivers results in the
order of its input iterable and buffers a finished result until all earlier
results have been delivered. -/
def leastAbsentAux (S : List Nat) : Nat → Nat → Nat
  | 0, m => m
  | fuel+1, m => if m ∈ S then leastAbsentAux S fuel (m+1) else m

/-- Least natural number not in `S`. -/
def leastAbsent (S : List Nat) : Nat :=
  leastAbsentAux S (S.length + 1) 0

/-- The result sequence the imap iterator has yielded after the completions
in `schedule`, with `g` the per-index task outcome. -/
def imapYielded (g : Nat → SearchResult) (schedule : List Nat) :
    List SearchResult :=
  (List.range (leastAbsent schedule)).map g

/-- The aggregation loop of main.py lines 186-192: on a run the `results`
list collects everything `pool.imap` yields for the submitted tasks, given
the order in which workers completed the task indices. -/
def poolRunResults (f : SearchRow → SearchResult) (tasks : List SearchRow)
    (schedule : List Nat) : List SearchResult :=
  imapYielded (fun i => f (tasks.getD i default)) schedule

theorem leastAbsentAux_eq (S : List Nat) (n : Nat)
    (hmem : ∀ k, k ∈ S ↔ k < n) :
    ∀ fuel m, m ≤ n → n < m + fuel → leastAbsentAux S fuel m = n := by
  intro fuel
  induction fuel with
  | zero =>
    intro m h1 h2
    omega
  | succ fuel ih =>
    intro m h1 h2
    rw [leastAbsentAux]
    by_cases hm : m ∈ S
    · have hlt : m < n := (hmem m).mp hm
      rw [if_pos hm]
      exact ih (m+1) (by omega) (by omega)
    · have hge : ¬ m < n := fun hlt => hm ((hmem m).mpr hlt)
      rw [if_neg hm]
      omega

/-- On a completed run the completion schedule is a permutation of the task
indices, and every index below the task count has been delivered. -/
theorem leastAbsent_of_perm (schedule : List Nat) (n : Nat)
    (hp : schedule.Perm (List.range n)) : leastAbsent schedule = n := by
  have hmem : ∀ k, k ∈ schedule ↔ k < n := by
    intro k
    rw [hp.mem_iff, List.mem_range]
  have hlen : schedule.length = n := by
    rw [hp.length_eq, List.length_range]
  exact leastAbsentAux_eq schedule n hmem (schedule.length + 1) 0
    (by omega) (by omega)

theorem range_map_getD (f : SearchRow → SearchResult) (tasks : List SearchRow) :
    (List.range tasks.length).map (fun i => f (tasks.getD i default)) =
      tasks.map f := by
  induction tasks with
  | nil => simp
  | cons a t ih =>
    rw [List.length_cons, List.range_succ_eq_map]
    simp only [List.map_cons, List.map_map]
    refine congrArg₂ List.cons rfl ?_
    rw [← ih]
    rfl

/-- C3: a completed run yields exactly one SearchResult per SearchTask: for
every task list and every completion schedule that is a permutation of the
task indices (whatever order the workers finished in, for any pool size
that produced it), the number of collected results equals the number of
tasks. -/
theorem results_one_per_task (f : SearchRow → SearchResult)
    (tasks : List SearchRow) (schedule : List Nat)
    (hs : schedule.Perm (List.range tasks.length)) :
    (poolRunResults f tasks schedule).length = tasks.length := by
  unfold poolRunResults imapYielded
  rw [leastAbsent_of_perm _ _ hs, List.length_map, List.length_range]

/-- The per-task outcome used in concrete pool runs: every page renders with
a Borrow marker. -/
def demoClassify (r : SearchRow) : SearchResult :=
  classifyResult r (lit "Borrow")

/-- Witness for the C3 theorem: two tasks completed in reversed order still
produce exactly two results. -/
theorem results_one_per_task_witness :
    (poolRunResults demoClassify [demoRowA, demoRowB] [1, 0]).length = 2 :=
  results_one_per_task demoClassify [demoRowA, demoRowB] [1, 0] (by decide)

/-- The C9 claim in the words of the spec: the pool exposes results ordered
by completion, the order in which workers finish the task indices. -/
def specCompletionOrderResults (f : SearchRow → SearchResult)
    (tasks : List SearchRow) (schedule : List Nat) : List SearchResult :=
  schedule.map (fun i => f (tasks.getD i default))

/-- C9 counterexample: two tasks whose workers finish in reversed order.
The collected sequence still lists the first-submitted result first, so it
differs from the completion-ordered sequence the claim describes. -/
theorem completion_order_counterexample :
    poolRunResults demoClassify [demoRowA, demoRowB] [1, 0] ≠
      specCompletionOrderResults demoClassify [demoRowA, demoRowB] [1, 0] := by
  decide

/-- C9 amended: `pool.imap` exposes results to the aggregator in task
submission order, not completion order: for every completion schedule that
is a permutation of the task indices, the collected sequence equals the
tasks mapped in submission order. -/
theorem results_in_submission_order (f : SearchRow → SearchResult)
    (tasks : List SearchRow) (schedule : List Nat)
    (hs : schedule.Perm (List.range tasks.length)) :
    poolRunResults f tasks schedule = tasks.map f := by
  unfold poolRunResults imapYielded
  rw [leastAbsent_of_perm _ _ hs]
  exact range_map_getD f tasks

/-- Witness for the C9 amended theorem at a concrete reversed schedule. -/
theorem results_in_submission_order_witness :
    poolRunResults demoClassify [demoRowA, demoRowB] [1, 0] =
      [demoClassify demoRowA, demoClassify demoRowB] :=
  results_in_submission_order demoClassify [demoRowA, demoRowB] [1, 0]
    (by decide)

/-- Session bookkeeping for one run: which workers currently hold a created
driver (the thread-local storage of main.py line 44), how many rendering
engines were created, and how many times a driver was explicitly quit. -/
structure SessionLedger where
  holders : List Nat
  created : Nat
  quitCalls : Nat
deriving DecidableEq, Repr

/-- The ledger before any task runs. -/
def emptyLedger : SessionLedger := ⟨[], 0, 0⟩

/-- `create_driver` (main.py lines 47-52) as it affects the ledger: the
worker reuses its thread-local driver when present, otherwise instantiates
a new Driver, which spawns a rendering engine. -/
def create_driver (wid : Nat) (st : SessionLedger) : SessionLedger :=
  if wid ∈ st.holders then st
  else { holders := wid :: st.holders, created := st.created + 1,
         quitCalls := st.quitCalls }

/-- A run processes its task-to-worker assignment in order; each task calls
`create_driver` on the worker it ran on (main.py line 101). -/
def runTasks (assignment : List Nat) : SessionLedger :=
  assignment.foldl (fun st wid => create_driver wid st) emptyLedger

/-- The shutdown path of main.py lines 194-201: `pool.close()`,
`pool.join()`, then the CSV write.  No code path calls `driver.quit()`; the
imported atexit module is never used; the ledger is unchanged. -/
def shutdownRun (st : SessionLedger) : SessionLedger := st

theorem create_driver_quitCalls (wid : Nat) (st : SessionLedger) :
    (create_driver wid st).quitCalls = st.quitCalls := by
  unfold create_driver
  split <;> rfl

theorem runTasks_quitCalls_aux (assignment : List Nat) (st : SessionLedger) :
    (assignment.foldl (fun st wid => create_driver wid st) st).quitCalls =
      st.quitCalls := by
  induction assignment generalizing st with
  | nil => rfl
  | cons a t ih => rw [List.foldl_cons, ih, create_driver_quitCalls]

theorem create_driver_created_le (wid : Nat) (st : SessionLedger) :
    st.created ≤ (create_driver wid st).created := by
  unfold create_driver
  split
  · exact le_rfl
  · simp

theorem runTasks_created_le (assignment : List Nat) (st : SessionLedger) :
    st.created ≤
      (assignment.foldl (fun st wid => create_driver wid st) st).created := by
  induction assignment generalizing st with
  | nil => exact le_rfl
  | cons a t ih =>
    rw [List.foldl_cons]
    exact le_trans (create_driver_created_le a st) (ih _)

/-- C8: the code never releases a session.  After shutdown the quit count is
zero for every run, while any run that processed at least one task created
at least one rendering engine; on the concrete one-task run the ledger
shows one engine created and zero quit.  The claim that every created
session is released exactly once therefore fails on every nonempty run. -/
theorem sessions_never_released (assignment : List Nat) :
    (shutdownRun (runTasks assignment)).quitCalls = 0 ∧
    (assignment ≠ [] → 1 ≤ (shutdownRun (runTasks assignment)).created) ∧
    shutdownRun (runTasks [0]) =
      { holders := [0], created := 1, quitCalls := 0 } := by
  refine ⟨?_, ?_, by rfl⟩
  · exact runTasks_quitCalls_aux assignment emptyLedger
  · intro hne
    cases assignment with
    | nil => exact absurd rfl hne
    | cons a t =>
      show 1 ≤ (List.foldl _ (create_driver a emptyLedger) t).created
      have h1 : (create_driver a emptyLedger).created = 1 := by rfl
      have := runTasks_created_le t (create_driver a emptyLedger)
      omega

/-- Witness for the C8 theorem: the one-task run creates a session that is
never quit. -/
theorem sessions_never_released_witness :
    1 ≤ (shutdownRun (runTasks [0])).created :=
  (sessions_never_released [0]).2.1 (by simp)
